import Mathlib

/-!
Shallow embedding of the CARLA client scripts of this repository
(`basicEgentFirstTime.py`, `addingTraffic.py`, `spwnSpcfcLocCamOk.py`).

The scripts connect to a CARLA server, spawn a player vehicle, attach a
camera, optionally spawn an endpoint marker, configure traffic lights,
spawn traffic cars, run a pygame display loop and tear everything down in
a `finally` block.  The external simulator is modelled by oracles
(functions supplied in a `SessionEnv`); the Python control flow is
translated function by function.
-/

/-- A camera frame: width, height and the raw byte buffer (BGRA bytes in
row-major order), mirroring the fields `image.width`, `image.height` and
`image.raw_data` of a CARLA image. -/
structure Frame where
  width : Nat
  height : Nat
  raw_data : List Nat
  deriving DecidableEq

/-- `carla_image_to_pygame`: reinterpret the raw buffer as a
`(height, width, 4)` BGRA array, keep the first three channels and reverse
them, yielding RGB pixels.  Pixel `(r, c)` of the result is
`[buf (4*(r*w+c)+2), buf (4*(r*w+c)+1), buf (4*(r*w+c))]`.
`none` models the `ValueError` that numpy's `reshape` raises when the
buffer size is not `height * width * 4`. -/
def carla_image_to_pygame (image : Frame) : Option (List (List (List Nat))) :=
  if image.raw_data.length = image.height * image.width * 4 then
    some ((List.range image.height).map fun r =>
      (List.range image.width).map fun c =>
        [image.raw_data.getD (4 * (r * image.width + c) + 2) 0,
         image.raw_data.getD (4 * (r * image.width + c) + 1) 0,
         image.raw_data.getD (4 * (r * image.width + c)) 0])
  else none

/-- A buffer of `n` pixels all holding the same `B, G, R, A` quadruple. -/
def constBuf : Nat → Nat → Nat → Nat → Nat → List Nat
  | 0, _, _, _, _ => []
  | n + 1, b, g, r, a => b :: g :: r :: a :: constBuf n b g r a

/-- The sensor callback `process_image`: overwrite the shared
`latest_image` slot with the incoming frame (last write wins, nothing is
queued); the previous value is discarded. -/
def process_image (latest_image : Option Frame) (image : Frame) : Option Frame :=
  some image

/-- Deliver a sequence of frames to the callback in order, starting from
the given contents of the `latest_image` slot, and return the final
contents of the slot. -/
def deliverFrames (latest_image : Option Frame) (frames : List Frame) : Option Frame :=
  frames.foldl process_image latest_image

/-- A pygame input event: either `pygame.QUIT` or anything else. -/
inductive PyEvent
  | quit
  | other
  deriving DecidableEq

/-- The input to one iteration of the display loop: the events drained by
`pygame.event.get()` and the current contents of the `latest_image` slot. -/
structure TickInput where
  events : List PyEvent
  frame : Option Frame
  deriving DecidableEq

/-- An observable effect of one loop iteration: the
`agent.run_step` / `apply_control` pair, a blit of a decoded image, or a
`pygame.display.flip`. -/
inductive TickEff
  | control
  | render (img : List (List (List Nat)))
  | flip
  deriving DecidableEq

/-- How the display loop ended: `stopped` via the quit event (`return`),
`errored` via an uncaught exception inside the loop body, or `outOfTicks`
when the supplied schedule of tick inputs ran out. -/
inductive LoopExit
  | stopped
  | errored
  | outOfTicks
  deriving DecidableEq

/-- Whether the drained events contain a `pygame.QUIT` event. -/
def hasQuit (t : TickInput) : Bool :=
  t.events.any fun e => e = PyEvent.quit

/-- A tick that neither quits nor raises while decoding its frame. -/
def tickOk (t : TickInput) : Bool :=
  !hasQuit t &&
    (match t.frame with
     | none => true
     | some f => (carla_image_to_pygame f).isSome)

/-- The display loop of `basicEgentFirstTime.main` (lines 141-156), run on
a schedule of tick inputs.  Each iteration drains events and returns on a
quit event; otherwise it applies the agent control, decodes and blits the
latest image when one is present, and flips the display.  A decode failure
is an uncaught exception: the control call of that tick has already
happened, no blit and no flip occur, and the loop terminates. -/
def runLoop : List TickInput → List TickEff × LoopExit
  | [] => ([], LoopExit.outOfTicks)
  | t :: rest =>
    if hasQuit t then ([], LoopExit.stopped)
    else
      match t.frame with
      | none =>
        let res := runLoop rest
        (TickEff.control :: TickEff.flip :: res.1, res.2)
      | some f =>
        match carla_image_to_pygame f with
        | none => ([TickEff.control], LoopExit.errored)
        | some img =>
          let res := runLoop rest
          (TickEff.control :: TickEff.render img :: TickEff.flip :: res.1, res.2)

/-- A spawn point drawn from `world.get_map().get_spawn_points()`. -/
abbrev Pose := Nat

/-- An opaque reference to a simulator-owned actor. -/
abbrev Handle := Nat

/-- A Python runtime error relevant to the spawner: `i % 0` raises
`ZeroDivisionError`. -/
inductive PyError
  | zeroDivisionError
  deriving DecidableEq

/-- Observable record of a run of `spawn_traffic_cars`: the `traffic_cars`
accumulator, the handles on which `set_autopilot(True)` was called, the
number of `try_spawn_actor` calls issued, and the pose given to each
requested unit in order. -/
structure SpawnTrace where
  cars : List Handle
  autopiloted : List Handle
  attempts : Nat
  poses : List Pose
  deriving DecidableEq

/-- The state of `spawn_traffic_cars` before its loop body has run. -/
def initialSpawnTrace : SpawnTrace :=
  ⟨[], [], 0, []⟩

/-- The pose assigned to unit `i`: `spawn_points[i % len(spawn_points)]`.
Only meaningful for a non-empty pose list (the empty case raises before
this value is used). -/
def assignedPose (spawn_points : List Pose) (i : Nat) : Pose :=
  spawn_points.getD (i % spawn_points.length) 0

/-- One iteration of the `for i in range(num_cars)` loop of
`spawn_traffic_cars`: evaluate `spawn_points[i % len(spawn_points)]`
(raising `ZeroDivisionError` when the list is empty), pick a vehicle type,
call `try_spawn_actor`; on success append the handle and enable autopilot,
on failure continue.  An error carries the trace accumulated so far. -/
def spawnIter (spawn_points : List Pose) (chooseType : Nat → String)
    (trySpawn : Nat → String → Pose → Option Handle) (i : Nat) (st : SpawnTrace) :
    Except (PyError × SpawnTrace) SpawnTrace :=
  if spawn_points.length = 0 then
    Except.error (PyError.zeroDivisionError, st)
  else
    let sp := assignedPose spawn_points i
    let bp := chooseType i
    let st1 : SpawnTrace :=
      ⟨st.cars, st.autopiloted, st.attempts + 1, st.poses ++ [sp]⟩
    match trySpawn i bp sp with
    | some v => Except.ok ⟨st1.cars ++ [v], st1.autopiloted ++ [v], st1.attempts, st1.poses⟩
    | none => Except.ok st1

/-- The loop of `spawn_traffic_cars`, iterating `spawnIter` for indices
`i, i+1, ...` with `rem` iterations remaining. -/
def spawnLoop (spawn_points : List Pose) (chooseType : Nat → String)
    (trySpawn : Nat → String → Pose → Option Handle) :
    Nat → Nat → SpawnTrace → Except (PyError × SpawnTrace) SpawnTrace
  | _, 0, st => Except.ok st
  | i, rem + 1, st =>
    match spawnIter spawn_points chooseType trySpawn i st with
    | Except.error e => Except.error e
    | Except.ok st1 => spawnLoop spawn_points chooseType trySpawn (i + 1) rem st1

/-- `spawn_traffic_cars(world, blueprint_library, num_cars)`: the
simulator is abstracted by the pose list, the per-iteration vehicle-type
choice and the `try_spawn_actor` oracle. -/
def spawn_traffic_cars (spawn_points : List Pose) (chooseType : Nat → String)
    (trySpawn : Nat → String → Pose → Option Handle) (num_cars : Nat) :
    Except (PyError × SpawnTrace) SpawnTrace :=
  spawnLoop spawn_points chooseType trySpawn 0 num_cars initialSpawnTrace

/-- A CARLA traffic-light state. -/
inductive TLState
  | Red
  | Yellow
  | Green
  deriving DecidableEq

/-- A traffic light of the world: identity, current state and the two
configurable durations (seconds). -/
structure TrafficLight where
  id : Nat
  state : TLState
  green_time : Rat
  red_time : Rat
  deriving DecidableEq

/-- An observable session event: a traffic-light mutation, the start of
the display loop, or a `destroy()` call on a handle together with the
boolean the simulator returned (which the scripts ignore). -/
inductive SessEv
  | setLightState (lightId : Nat) (s : TLState)
  | setGreenTime (lightId : Nat) (t : Rat)
  | setRedTime (lightId : Nat) (t : Rat)
  | loopStart
  | destroy (h : Handle) (ok : Bool)
  deriving DecidableEq

/-- `setup_traffic_lights(world)` (lines 42-51 of
`basicEgentFirstTime.py`): for every traffic light of the world, set its
state to Red, its green time to 5.0 and its red time to 5.0, and collect
it.  Returns the emitted events and the updated lights. -/
def setup_traffic_lights : List TrafficLight → List SessEv × List TrafficLight
  | [] => ([], [])
  | l :: ls =>
    let rest := setup_traffic_lights ls
    (SessEv.setLightState l.id TLState.Red ::
       SessEv.setGreenTime l.id 5 ::
         SessEv.setRedTime l.id 5 :: rest.1,
     ⟨l.id, TLState.Red, 5, 5⟩ :: rest.2)

/-- How `main` ended: normal `return` on the quit event, an early
`return` (no spawn points, or the player vehicle failed to spawn), or an
exception caught by the top-level handler. -/
inductive ExitKind
  | quitEvent
  | earlyReturn
  | exception
  deriving DecidableEq

/-- The simulator, as seen by one run of `basicEgentFirstTime.main`:
whether connecting and loading the town succeeds, the map's spawn points,
the results of the `try_spawn_actor` calls for the player vehicle and the
endpoint marker bus, the result of `world.spawn_actor` for the camera
(`none` models the exception it raises on failure), the traffic lights of
the world, the traffic-spawner oracles, the boolean each `destroy()` call
returns, and whether the display loop ends in an exception. -/
structure SessionEnv where
  connectOk : Bool
  spawn_points : List Pose
  vehicleSpawn : Option Handle
  cameraSpawn : Option Handle
  busSpawn : Option Handle
  lights : List TrafficLight
  chooseType : Nat → String
  trySpawnTraffic : Nat → String → Pose → Option Handle
  destroyOk : Handle → Bool
  loopFails : Bool

/-- What one run of `main` did: the event trace, which handles were
acquired at each of the four acquisition sites, and how the run ended. -/
structure SessionResult where
  trace : List SessEv
  cameraAcq : Option Handle
  vehicleAcq : Option Handle
  busAcq : Option Handle
  trafficAcq : List Handle
  exit : ExitKind

/-- Issue a `destroy()` call for every handle in the list, in order,
recording the boolean each call returned; the scripts never consult that
boolean, so the walk always continues. -/
def destroyAll (destroyOk : Handle → Bool) : List Handle → List SessEv
  | [] => []
  | h :: hs => SessEv.destroy h (destroyOk h) :: destroyAll destroyOk hs

/-- The `finally` block of `main` (lines 160-169 of
`basicEgentFirstTime.py`): destroy the camera if one was spawned, then the
player vehicle, then the bus marker, then every traffic car. -/
def teardown (destroyOk : Handle → Bool) (camera vehicle bus : Option Handle)
    (traffic : List Handle) : List SessEv :=
  destroyAll destroyOk (camera.toList ++ vehicle.toList ++ bus.toList ++ traffic)

/-- `basicEgentFirstTime.main`, driven by a `SessionEnv`.  The Python
control flow is mirrored branch by branch: connection failure raises
before anything is acquired; an empty spawn-point list and a failed
player-vehicle spawn `return` early; a camera spawn failure raises after
the vehicle was acquired; otherwise the bus marker is attempted, the
traffic lights are configured, traffic is spawned (non-fatally per car),
and the display loop runs until quit or an exception.  Every path ends in
the `finally` teardown over exactly the handles acquired so far. -/
def sessionMain (env : SessionEnv) : SessionResult :=
  if env.connectOk = false then
    ⟨teardown env.destroyOk none none none [], none, none, none, [], ExitKind.exception⟩
  else if env.spawn_points.isEmpty then
    ⟨teardown env.destroyOk none none none [], none, none, none, [], ExitKind.earlyReturn⟩
  else
    match env.vehicleSpawn with
    | none =>
      ⟨teardown env.destroyOk none none none [], none, none, none, [], ExitKind.earlyReturn⟩
    | some vh =>
      match env.cameraSpawn with
      | none =>
        ⟨teardown env.destroyOk none (some vh) none [], none, some vh, none, [],
         ExitKind.exception⟩
      | some ch =>
        let bus := env.busSpawn
        let lightSetup := setup_traffic_lights env.lights
        match spawn_traffic_cars env.spawn_points env.chooseType env.trySpawnTraffic 10 with
        | Except.error _ =>
          ⟨lightSetup.1 ++ teardown env.destroyOk (some ch) (some vh) bus [],
           some ch, some vh, bus, [], ExitKind.exception⟩
        | Except.ok tr =>
          ⟨lightSetup.1 ++ SessEv.loopStart ::
             teardown env.destroyOk (some ch) (some vh) bus tr.cars,
           some ch, some vh, bus, tr.cars,
           if env.loopFails then ExitKind.exception else ExitKind.quitEvent⟩

/-- The handles acquired by a run, in acquisition order: player vehicle,
camera, bus marker, traffic cars. -/
def acquiredList (res : SessionResult) : List Handle :=
  res.vehicleAcq.toList ++ res.cameraAcq.toList ++ res.busAcq.toList ++ res.trafficAcq

/-- Project a session event to the handle it destroys, if any. -/
def destroyProj : SessEv → Option Handle
  | SessEv.destroy h _ => some h
  | _ => none

/-- The handles passed to `destroy()` during a run, in call order. -/
def destroyedHandles (res : SessionResult) : List Handle :=
  res.trace.filterMap destroyProj

/-- A concrete environment used to exercise the session on a full run:
connection succeeds, two spawn points, vehicle 100, camera 101, bus 102,
one traffic light, and the first three traffic spawns succeed. -/
def env0 : SessionEnv :=
  ⟨true, [0, 1], some 100, some 101, some 102, [⟨7, TLState.Green, 10, 10⟩],
   fun _ => "vehicle.tesla.model3",
   fun i _ p => if i < 3 then some (200 + 2 * i + p) else none,
   fun _ => true, false⟩

lemma constBuf_length (n b g r a : Nat) : (constBuf n b g r a).length = 4 * n := by
  induction n with
  | zero => rfl
  | succ m ih =>
    simp only [constBuf, List.length_cons, ih]
    ring

lemma constBuf_getD (b g r a d : Nat) :
    ∀ n p k, p < n → k < 4 →
      (constBuf n b g r a).getD (4 * p + k) d = [b, g, r, a].getD k d := by
  intro n
  induction n with
  | zero => intro p k hp _; omega
  | succ m ih =>
    intro p k hp hk
    match p with
    | 0 =>
      simp only [Nat.mul_zero, Nat.zero_add, constBuf]
      interval_cases k <;> rfl
    | q + 1 =>
      rw [show 4 * (q + 1) + k = 4 * q + k + 1 + 1 + 1 + 1 by ring]
      simp only [constBuf, List.getD_cons_succ]
      exact ih q k (by omega) hk

lemma map_range_const {α : Type} (n : Nat) (f : Nat → α) (x : α)
    (hf : ∀ i, i < n → f i = x) : (List.range n).map f = List.replicate n x := by
  induction n with
  | zero => rfl
  | succ m ih =>
    rw [List.range_succ, List.map_append, List.replicate_succ']
    rw [ih fun i hi => hf i (by omega)]
    simp [hf m (by omega)]

/-- C2: for every buffer of size `width * height * 4` the frame decoder
succeeds and produces `height` rows of `width` pixels with exactly 3
channels each, and on a buffer filled with one constant `(B,G,R,A)`
quadruple every output pixel is the constant `[R,G,B]`. -/
theorem frame_decoder_dims_and_constant_color :
    (∀ image : Frame, image.raw_data.length = image.width * image.height * 4 →
      ∃ out, carla_image_to_pygame image = some out ∧
        out.length = image.height ∧
        ∀ row ∈ out, row.length = image.width ∧ ∀ px ∈ row, px.length = 3) ∧
    (∀ w h b g r a : Nat,
      carla_image_to_pygame ⟨w, h, constBuf (h * w) b g r a⟩ =
        some (List.replicate h (List.replicate w [r, g, b]))) := by
  constructor
  · intro image hlen
    rw [carla_image_to_pygame, if_pos (by rw [hlen]; ring)]
    refine ⟨_, rfl, by simp, ?_⟩
    intro row hrow
    obtain ⟨rr, -, rfl⟩ := List.mem_map.1 hrow
    constructor
    · simp
    · intro px hpx
      obtain ⟨cc, -, rfl⟩ := List.mem_map.1 hpx
      rfl
  · intro w h b g r a
    rw [carla_image_to_pygame,
      if_pos (by simp only [constBuf_length]; ring)]
    congr 1
    apply map_range_const
    intro rr hrr
    apply map_range_const
    intro cc hcc
    have hlt : rr * w + cc < h * w := by
      have h1 : rr * w + cc < (rr + 1) * w := by
        have := Nat.add_lt_add_left hcc (rr * w)
        calc rr * w + cc < rr * w + w := this
          _ = (rr + 1) * w := by ring
      exact Nat.lt_of_lt_of_le h1 (Nat.mul_le_mul_right w hrr)
    show [_, _, _] = [r, g, b]
    rw [constBuf_getD b g r a 0 (h * w) (rr * w + cc) 2 hlt (by omega),
      constBuf_getD b g r a 0 (h * w) (rr * w + cc) 1 hlt (by omega),
      show (4 * (rr * w + cc) : Nat) = 4 * (rr * w + cc) + 0 by ring,
      constBuf_getD b g r a 0 (h * w) (rr * w + cc) 0 hlt (by omega)]
    rfl

/-- Witness for C2: a concrete 2-by-3 frame filled with the BGRA quadruple
`(1, 2, 3, 4)` decodes to the constant `[3, 2, 1]` image, and a concrete
valid 1-by-1 frame decodes with the stated dimensions. -/
theorem frame_decoder_dims_witness :
    ((Frame.mk 1 1 [9, 8, 7, 6]).raw_data.length = 1 * 1 * 4 ∧
      ∃ out, carla_image_to_pygame (Frame.mk 1 1 [9, 8, 7, 6]) = some out ∧
        out.length = 1 ∧ ∀ row ∈ out, row.length = 1 ∧ ∀ px ∈ row, px.length = 3) ∧
    carla_image_to_pygame (Frame.mk 2 3 (constBuf (3 * 2) 1 2 3 4)) =
      some (List.replicate 3 (List.replicate 2 [3, 2, 1])) :=
  ⟨⟨by decide, frame_decoder_dims_and_constant_color.1 (Frame.mk 1 1 [9, 8, 7, 6]) (by decide)⟩,
   frame_decoder_dims_and_constant_color.2 2 3 1 2 3 4⟩

/-- C8: after delivering frames `F1..FN` (N at least one) to the sensor
callback in order, the `latest_image` slot holds exactly `FN`, whatever it
held before: each callback overwrites the previous frame and nothing is
queued. -/
theorem latest_frame_slot_holds_last_delivered (init : Option Frame)
    (frames : List Frame) (h : frames ≠ []) :
    deliverFrames init frames = some (frames.getLast h) := by
  induction frames generalizing init with
  | nil => exact absurd rfl h
  | cons f rest ih =>
    match rest with
    | [] => rfl
    | f2 :: rest2 =>
      rw [List.getLast_cons (by simp)]
      exact ih (some f) (by simp)

/-- Witness for C8: delivering two concrete frames to an empty slot leaves
exactly the second one in the slot. -/
theorem latest_frame_slot_witness :
    ([Frame.mk 1 1 [0], Frame.mk 2 2 [1]] : List Frame) ≠ [] ∧
    deliverFrames none [Frame.mk 1 1 [0], Frame.mk 2 2 [1]] =
      some (([Frame.mk 1 1 [0], Frame.mk 2 2 [1]] : List Frame).getLast (by decide)) :=
  ⟨by decide, latest_frame_slot_holds_last_delivered none _ (by decide)⟩

lemma spawnLoop_ok (sps : List Pose) (ct : Nat → String)
    (ts : Nat → String → Pose → Option Handle) (hne : sps.length ≠ 0) :
    ∀ rem i st, spawnLoop sps ct ts i rem st = Except.ok
      ⟨st.cars ++ (List.range' i rem).filterMap (fun j => ts j (ct j) (assignedPose sps j)),
       st.autopiloted ++ (List.range' i rem).filterMap (fun j => ts j (ct j) (assignedPose sps j)),
       st.attempts + rem,
       st.poses ++ (List.range' i rem).map (assignedPose sps)⟩ := by
  intro rem
  induction rem with
  | zero => intro i st; simp [spawnLoop]
  | succ m ih =>
    intro i st
    rw [List.range'_succ]
    simp only [spawnLoop, spawnIter, if_neg hne]
    cases hts : ts i (ct i) (assignedPose sps i) with
    | none =>
      show spawnLoop sps ct ts (i + 1) m
          ⟨st.cars, st.autopiloted, st.attempts + 1, st.poses ++ [assignedPose sps i]⟩ = _
      rw [ih]
      simp only [Except.ok.injEq, SpawnTrace.mk.injEq, List.filterMap_cons, hts,
        List.map_cons, List.append_assoc, List.singleton_append]
      exact ⟨trivial, trivial, by omega, trivial⟩
    | some v =>
      show spawnLoop sps ct ts (i + 1) m
          ⟨st.cars ++ [v], st.autopiloted ++ [v], st.attempts + 1,
           st.poses ++ [assignedPose sps i]⟩ = _
      rw [ih]
      simp only [Except.ok.injEq, SpawnTrace.mk.injEq, List.filterMap_cons, hts,
        List.map_cons, List.append_assoc, List.singleton_append]
      exact ⟨trivial, trivial, by omega, trivial⟩

/-- C7: with a non-empty pose list, `spawn_traffic_cars` never fails: each
per-unit creation failure is skipped, autopilot is enabled on exactly the
successfully created handles, the returned `traffic_cars` list is exactly
the successful results of the `try_spawn_actor` oracle over units
`0..n-1`, its length is at most the requested count, and one creation
attempt is made per requested unit. -/
theorem spawner_skips_failures_and_returns_successes (sps : List Pose)
    (ct : Nat → String) (ts : Nat → String → Pose → Option Handle) (n : Nat)
    (hne : sps ≠ []) :
    ∃ tr, spawn_traffic_cars sps ct ts n = Except.ok tr ∧
      tr.cars = (List.range n).filterMap (fun j => ts j (ct j) (assignedPose sps j)) ∧
      tr.autopiloted = tr.cars ∧
      tr.attempts = n ∧
      tr.cars.length ≤ n := by
  have hlen : sps.length ≠ 0 := by
    intro h0
    exact hne (List.length_eq_zero.1 h0)
  have h1 := spawnLoop_ok sps ct ts hlen n 0 initialSpawnTrace
  refine ⟨_, h1, ?_, ?_, ?_, ?_⟩
  · simp [initialSpawnTrace, List.range_eq_range']
  · simp [initialSpawnTrace]
  · simp [initialSpawnTrace]
  · simp only [initialSpawnTrace, List.nil_append]
    calc ((List.range' 0 n).filterMap fun j => ts j (ct j) (assignedPose sps j)).length
        ≤ (List.range' 0 n).length := List.length_filterMap_le _ _
      _ = n := by simp

/-- Witness for C7: two poses, three requested units, the middle creation
failing: the spawner returns the two successful handles. -/
theorem spawner_skips_failures_witness :
    ([5, 6] : List Pose) ≠ [] ∧
    ∃ tr, spawn_traffic_cars [5, 6] (fun _ => "vehicle.tesla.model3")
        (fun i _ p => if i = 1 then none else some (10 + i + p)) 3 = Except.ok tr ∧
      tr.cars = (List.range 3).filterMap
        (fun j => (fun i _ p => if i = 1 then none else some (10 + i + p)) j
          ((fun _ => "vehicle.tesla.model3") j) (assignedPose [5, 6] j)) ∧
      tr.autopiloted = tr.cars ∧
      tr.attempts = 3 ∧
      tr.cars.length ≤ 3 :=
  ⟨by decide,
   spawner_skips_failures_and_returns_successes [5, 6] (fun _ => "vehicle.tesla.model3")
     (fun i _ p => if i = 1 then none else some (10 + i + p)) 3 (by decide)⟩

/-- C6: with `M` available poses (`M` = length of the non-empty pose
list) and a requested count `N` with `i + M < N`, the spawner assigns
poses cyclically: units `i` and `i + M` receive the same pose, namely
`spawn_points[i % M]`. -/
theorem spawner_assigns_poses_cyclically (sps : List Pose) (ct : Nat → String)
    (ts : Nat → String → Pose → Option Handle) (N M i : Nat)
    (hM : M = sps.length) (hne : sps ≠ []) (hiN : i + M < N) :
    ∃ tr, spawn_traffic_cars sps ct ts N = Except.ok tr ∧
      tr.poses[i]? = some (assignedPose sps i) ∧
      tr.poses[i + M]? = some (assignedPose sps i) := by
  have hlen : sps.length ≠ 0 := by
    intro h0
    exact hne (List.length_eq_zero.1 h0)
  have h1 := spawnLoop_ok sps ct ts hlen N 0 initialSpawnTrace
  refine ⟨_, h1, ?_, ?_⟩
  · show (initialSpawnTrace.poses ++ (List.range' 0 N).map (assignedPose sps))[i]? = _
    rw [initialSpawnTrace, ← List.range_eq_range']
    simp only [List.nil_append, List.getElem?_map,
      List.getElem?_range (by omega : i < N), Option.map_some']
  · show (initialSpawnTrace.poses ++ (List.range' 0 N).map (assignedPose sps))[i + M]? = _
    rw [initialSpawnTrace, ← List.range_eq_range']
    simp only [List.nil_append, List.getElem?_map,
      List.getElem?_range (by omega : i + M < N), Option.map_some', Option.some.injEq]
    rw [assignedPose, assignedPose, hM, Nat.add_mod_right]

/-- Witness for C6: two poses `[5, 6]`, five requested units: units 1 and
3 both receive pose `6`. -/
theorem spawner_assigns_poses_cyclically_witness :
    (2 = ([5, 6] : List Pose).length ∧ ([5, 6] : List Pose) ≠ [] ∧ 1 + 2 < 5) ∧
    ∃ tr, spawn_traffic_cars [5, 6] (fun _ => "vehicle.tesla.model3")
        (fun _ _ _ => none) 5 = Except.ok tr ∧
      tr.poses[1]? = some (assignedPose [5, 6] 1) ∧
      tr.poses[1 + 2]? = some (assignedPose [5, 6] 1) :=
  ⟨⟨by decide, by decide, by decide⟩,
   spawner_assigns_poses_cyclically [5, 6] (fun _ => "vehicle.tesla.model3")
     (fun _ _ _ => none) 5 2 1 (by decide) (by decide) (by decide)⟩

/-- C9: calling the spawner with at least one requested unit and an empty
pose list raises `ZeroDivisionError` (from `i % len(spawn_points)` with
`len` zero) before any `try_spawn_actor` call is made: the error carries
the initial trace, whose attempt counter is zero. -/
theorem spawner_empty_pose_list_raises (ct : Nat → String)
    (ts : Nat → String → Pose → Option Handle) (n : Nat) (h : 1 ≤ n) :
    spawn_traffic_cars [] ct ts n =
      Except.error (PyError.zeroDivisionError, initialSpawnTrace) ∧
    initialSpawnTrace.attempts = 0 := by
  obtain ⟨m, rfl⟩ : ∃ m, n = m + 1 := ⟨n - 1, by omega⟩
  exact ⟨rfl, rfl⟩

/-- Witness for C9: requesting two units with no spawn points raises
immediately with zero creation attempts. -/
theorem spawner_empty_pose_list_witness :
    1 ≤ 2 ∧
    (spawn_traffic_cars [] (fun _ => "vehicle.tesla.model3") (fun _ _ _ => none) 2 =
        Except.error (PyError.zeroDivisionError, initialSpawnTrace) ∧
      initialSpawnTrace.attempts = 0) :=
  ⟨by decide,
   spawner_empty_pose_list_raises (fun _ => "vehicle.tesla.model3")
     (fun _ _ _ => none) 2 (by decide)⟩

/-- C5: as soon as one of the ticks of the display loop observes a quit
event among its drained input events, the loop returns: the run produces
exactly the effects of the earlier ticks, its state is STOPPED, and no
control call, blit or flip happens on the quit tick or on any later tick
(the schedule after the quit tick is irrelevant). -/
theorem display_loop_stops_on_quit (pre post : List TickInput) (t : TickInput)
    (hpre : ∀ u ∈ pre, tickOk u = true) (ht : hasQuit t = true) :
    runLoop (pre ++ t :: post) = ((runLoop pre).1, LoopExit.stopped) := by
  induction pre with
  | nil => simp [runLoop, ht]
  | cons u rest ih =>
    have hu : tickOk u = true := hpre u (by simp)
    have hrest : ∀ x ∈ rest, tickOk x = true := fun x hx => hpre x (by simp [hx])
    have hq : hasQuit u = false := by
      revert hu
      rw [tickOk]
      cases hasQuit u <;> simp
    rw [List.cons_append]
    cases hf : u.frame with
    | none =>
      simp only [runLoop, hq, Bool.false_eq_true, if_false, hf]
      rw [ih hrest]
    | some f =>
      have hdec : (carla_image_to_pygame f).isSome = true := by
        have h2 := hu
        rw [tickOk, hq, hf] at h2
        simpa using h2
      obtain ⟨img, himg⟩ := Option.isSome_iff_exists.1 hdec
      simp only [runLoop, hq, Bool.false_eq_true, if_false, hf, himg]
      rw [ih hrest]

/-- Witness for C5: one ordinary tick, then a tick whose events contain
the quit event, then one more scheduled tick: the loop performs only the
first tick's effects and stops. -/
theorem display_loop_stops_on_quit_witness :
    ((∀ u ∈ [TickInput.mk [PyEvent.other] none], tickOk u = true) ∧
      hasQuit (TickInput.mk [PyEvent.other, PyEvent.quit] none) = true) ∧
    runLoop ([TickInput.mk [PyEvent.other] none] ++
        TickInput.mk [PyEvent.other, PyEvent.quit] none :: [TickInput.mk [] none]) =
      ((runLoop [TickInput.mk [PyEvent.other] none]).1, LoopExit.stopped) :=
  ⟨⟨by decide, by decide⟩,
   display_loop_stops_on_quit [TickInput.mk [PyEvent.other] none]
     [TickInput.mk [] none] (TickInput.mk [PyEvent.other, PyEvent.quit] none)
     (by decide) (by decide)⟩

/-- Counterexample for C4: the decoder does signal the error, but a tick
that receives a malformed frame does not let the session continue.  On the
concrete schedule of a malformed-frame tick followed by an ordinary tick,
the loop stops with an exception after the malformed tick's control call:
the second tick contributes no effects and the loop does not reach the end
of its schedule, contradicting the claim that the frame is discarded and
the session continues. -/
theorem malformed_frame_counterexample :
    carla_image_to_pygame (Frame.mk 1 1 [0]) = none ∧
    runLoop [TickInput.mk [] (some (Frame.mk 1 1 [0])), TickInput.mk [] none] =
      ([TickEff.control], LoopExit.errored) ∧
    (runLoop [TickInput.mk [] (some (Frame.mk 1 1 [0])), TickInput.mk [] none]).2 ≠
      LoopExit.outOfTicks := by
  decide

/-- C4 as amended: the decoder fails exactly on a buffer whose size is not
`width * height * 4` (its only error condition), and a tick of the display
loop that receives such a malformed frame performs no render that tick and
raises: the loop terminates with the exception (routed to the top-level
handler and teardown) instead of continuing. -/
theorem malformed_frame_aborts_loop :
    (∀ image : Frame, carla_image_to_pygame image = none ↔
      image.raw_data.length ≠ image.height * image.width * 4) ∧
    (∀ (pre post : List TickInput) (t : TickInput) (f : Frame),
      (∀ u ∈ pre, tickOk u = true) → hasQuit t = false → t.frame = some f →
      carla_image_to_pygame f = none →
      runLoop (pre ++ t :: post) =
        ((runLoop pre).1 ++ [TickEff.control], LoopExit.errored)) := by
  constructor
  · intro image
    rw [carla_image_to_pygame]
    split
    · next hc => simp [hc]
    · next hc => simp [hc]
  · intro pre post t f hpre ht hf hdec
    induction pre with
    | nil => simp [runLoop, ht, hf, hdec]
    | cons u rest ih =>
      have hu : tickOk u = true := hpre u (by simp)
      have hrest : ∀ x ∈ rest, tickOk x = true := fun x hx => hpre x (by simp [hx])
      have hq : hasQuit u = false := by
        revert hu
        rw [tickOk]
        cases hasQuit u <;> simp
      rw [List.cons_append]
      cases hfu : u.frame with
      | none =>
        simp only [runLoop, hq, Bool.false_eq_true, if_false, hfu]
        rw [ih hrest]
        simp
      | some fu =>
        have hdecu : (carla_image_to_pygame fu).isSome = true := by
          have h2 := hu
          rw [tickOk, hq, hfu] at h2
          simpa using h2
        obtain ⟨img, himg⟩ := Option.isSome_iff_exists.1 hdecu
        simp only [runLoop, hq, Bool.false_eq_true, if_false, hfu, himg]
        rw [ih hrest]
        simp

/-- Witness for the amended C4: an ordinary tick followed by a concrete
malformed-frame tick: the loop produces the first tick's effects plus the
bare control call of the malformed tick and ends in the error state. -/
theorem malformed_frame_aborts_loop_witness :
    ((Frame.mk 2 2 [1, 2, 3]).raw_data.length ≠
        (Frame.mk 2 2 [1, 2, 3]).height * (Frame.mk 2 2 [1, 2, 3]).width * 4 ∧
      carla_image_to_pygame (Frame.mk 2 2 [1, 2, 3]) = none) ∧
    runLoop ([TickInput.mk [] none] ++
        TickInput.mk [] (some (Frame.mk 2 2 [1, 2, 3])) :: [TickInput.mk [] none]) =
      ((runLoop [TickInput.mk [] none]).1 ++ [TickEff.control], LoopExit.errored) :=
  ⟨⟨by decide, (malformed_frame_aborts_loop.1 (Frame.mk 2 2 [1, 2, 3])).2 (by decide)⟩,
   malformed_frame_aborts_loop.2 [TickInput.mk [] none] [TickInput.mk [] none]
     (TickInput.mk [] (some (Frame.mk 2 2 [1, 2, 3]))) (Frame.mk 2 2 [1, 2, 3])
     (by decide) (by decide) (by decide) (by decide)⟩

lemma destroyAll_proj (dok : Handle → Bool) (hs : List Handle) :
    (destroyAll dok hs).filterMap destroyProj = hs := by
  induction hs with
  | nil => rfl
  | cons h hs ih => simp [destroyAll, List.filterMap_cons, destroyProj, ih]

lemma lightEvents_no_destroy (ls : List TrafficLight) :
    (setup_traffic_lights ls).1.filterMap destroyProj = [] := by
  induction ls with
  | nil => rfl
  | cons l ls ih => simp [setup_traffic_lights, List.filterMap_cons, destroyProj, ih]

lemma session_destroyed_eq (env : SessionEnv) :
    destroyedHandles (sessionMain env) =
      (sessionMain env).cameraAcq.toList ++ (sessionMain env).vehicleAcq.toList ++
      (sessionMain env).busAcq.toList ++ (sessionMain env).trafficAcq := by
  rcases hc : env.connectOk with _ | _
  · simp [sessionMain, hc, destroyedHandles, teardown, destroyAll_proj]
  · rcases hsp : env.spawn_points.isEmpty with _ | _
    · rcases hv : env.vehicleSpawn with _ | vh
      · simp [sessionMain, hc, hsp, hv, destroyedHandles, teardown, destroyAll_proj]
      · rcases hcam : env.cameraSpawn with _ | ch
        · simp [sessionMain, hc, hsp, hv, hcam, destroyedHandles, teardown, destroyAll_proj]
        · rcases hspawn : spawn_traffic_cars env.spawn_points env.chooseType
            env.trySpawnTraffic 10 with e | tr
          · simp [sessionMain, hc, hsp, hv, hcam, hspawn, destroyedHandles, teardown,
              List.filterMap_append, lightEvents_no_destroy, destroyAll_proj]
          · simp [sessionMain, hc, hsp, hv, hcam, hspawn, destroyedHandles, teardown,
              List.filterMap_append, List.filterMap_cons, lightEvents_no_destroy,
              destroyAll_proj, destroyProj]
    · simp [sessionMain, hc, hsp, destroyedHandles, teardown, destroyAll_proj]

lemma session_destroy_perm (env : SessionEnv) :
    (destroyedHandles (sessionMain env)).Perm (acquiredList (sessionMain env)) := by
  rw [session_destroyed_eq, acquiredList]
  exact ((List.perm_append_comm.append_right _).append_right _)

/-- C1: on every exit path of the session (normal quit, exception at any
stage, spawn failure partway through), every handle that was acquired is
passed to `destroy()` exactly once, and no `destroy()` call is made on a
handle that was not acquired.  The hypothesis says the simulator issued
distinct handles. -/
theorem session_releases_each_acquired_handle_once (env : SessionEnv)
    (hnd : (acquiredList (sessionMain env)).Nodup) :
    (∀ h ∈ acquiredList (sessionMain env),
      (destroyedHandles (sessionMain env)).count h = 1) ∧
    (∀ h : Handle, h ∉ acquiredList (sessionMain env) →
      (destroyedHandles (sessionMain env)).count h = 0) := by
  have hperm := session_destroy_perm env
  constructor
  · intro h hm
    rw [hperm.count_eq]
    exact List.count_eq_one_of_mem hnd hm
  · intro h hm
    rw [hperm.count_eq]
    exact List.count_eq_zero.2 hm

/-- Witness for C1: on the concrete full-session environment `env0`
(vehicle 100, camera 101, bus 102, three traffic cars), every acquired
handle is destroyed exactly once and nothing else is destroyed. -/
theorem session_releases_once_witness :
    (acquiredList (sessionMain env0)).Nodup ∧
    ((∀ h ∈ acquiredList (sessionMain env0),
        (destroyedHandles (sessionMain env0)).count h = 1) ∧
      (∀ h : Handle, h ∉ acquiredList (sessionMain env0) →
        (destroyedHandles (sessionMain env0)).count h = 0)) :=
  ⟨by decide, session_releases_each_acquired_handle_once env0 (by decide)⟩

/-- C3: on every exit path, the `destroy()` calls of the teardown are
issued for exactly the acquired handles in the fixed order camera sensor,
reference vehicle, bus marker, traffic cars (first conjunct, for every
environment, hence for every pattern of destroy-call results); and a
release reporting failure — the boolean CARLA's `destroy()` returns for an
already-released actor, which the scripts ignore — never prevents the
remaining destroy calls: whatever the result oracle says, every handle of
the teardown list still receives its call, in order (second conjunct). -/
theorem teardown_order_and_tolerance :
    (∀ env : SessionEnv, destroyedHandles (sessionMain env) =
      (sessionMain env).cameraAcq.toList ++ (sessionMain env).vehicleAcq.toList ++
      (sessionMain env).busAcq.toList ++ (sessionMain env).trafficAcq) ∧
    (∀ (dok : Handle → Bool) (hs : List Handle),
      (destroyAll dok hs).filterMap destroyProj = hs) :=
  ⟨session_destroyed_eq, destroyAll_proj⟩

lemma setup_traffic_lights_mem (ls : List TrafficLight) :
    ∀ l ∈ ls, SessEv.setLightState l.id TLState.Red ∈ (setup_traffic_lights ls).1 ∧
      SessEv.setGreenTime l.id 5 ∈ (setup_traffic_lights ls).1 ∧
      SessEv.setRedTime l.id 5 ∈ (setup_traffic_lights ls).1 := by
  induction ls with
  | nil => simp
  | cons x ls ih =>
    intro l hl
    rcases List.mem_cons.1 hl with rfl | hl
    · simp [setup_traffic_lights]
    · have h3 := ih l hl
      simp only [setup_traffic_lights, List.mem_cons]
      exact ⟨Or.inr (Or.inr (Or.inr h3.1)), Or.inr (Or.inr (Or.inr h3.2.1)),
        Or.inr (Or.inr (Or.inr h3.2.2))⟩

lemma setup_traffic_lights_red (ls : List TrafficLight) :
    ∀ l2 ∈ (setup_traffic_lights ls).2,
      l2.state = TLState.Red ∧ l2.green_time = 5 ∧ l2.red_time = 5 := by
  induction ls with
  | nil => simp [setup_traffic_lights]
  | cons x ls ih =>
    intro l2 hl2
    simp only [setup_traffic_lights, List.mem_cons] at hl2
    rcases hl2 with rfl | hl2
    · exact ⟨rfl, rfl, rfl⟩
    · exact ih l2 hl2

/-- C10: in the navigation-agent variant, once the session has acquired
the player vehicle and the camera, it emits—before the display loop
starts—a set-state-to-Red, a set-green-time-to-5.0 and a
set-red-time-to-5.0 call for every traffic light present in the world,
and every light it returns is Red with both durations 5.0: a mutation of
simulator-owned state beyond spawning and releasing the session's own
actors (these events are not `destroy` events and concern actors the
session never spawned). -/
theorem traffic_lights_red_before_loop (env : SessionEnv) (vh ch : Handle)
    (hc : env.connectOk = true) (hsp : env.spawn_points ≠ [])
    (hv : env.vehicleSpawn = some vh) (hcam : env.cameraSpawn = some ch) :
    ∃ post, (sessionMain env).trace =
        (setup_traffic_lights env.lights).1 ++ SessEv.loopStart :: post ∧
      (∀ l ∈ env.lights,
        SessEv.setLightState l.id TLState.Red ∈ (setup_traffic_lights env.lights).1 ∧
        SessEv.setGreenTime l.id 5 ∈ (setup_traffic_lights env.lights).1 ∧
        SessEv.setRedTime l.id 5 ∈ (setup_traffic_lights env.lights).1) ∧
      (∀ l2 ∈ (setup_traffic_lights env.lights).2,
        l2.state = TLState.Red ∧ l2.green_time = 5 ∧ l2.red_time = 5) := by
  have hlen : env.spawn_points.length ≠ 0 := by
    intro h0
    exact hsp (List.length_eq_zero.1 h0)
  have hie : env.spawn_points.isEmpty = false := List.isEmpty_eq_false.2 hsp
  have hspawn := spawnLoop_ok env.spawn_points env.chooseType env.trySpawnTraffic hlen
    10 0 initialSpawnTrace
  have htr : (sessionMain env).trace =
      (setup_traffic_lights env.lights).1 ++ SessEv.loopStart ::
        teardown env.destroyOk (some ch) (some vh) env.busSpawn
          ((List.range' 0 10).filterMap
            (fun j => env.trySpawnTraffic j (env.chooseType j)
              (assignedPose env.spawn_points j))) := by
    simp only [sessionMain, hc, hie, hv, hcam, Bool.true_eq_false, if_false,
      Bool.false_eq_true, spawn_traffic_cars, hspawn]
    simp [initialSpawnTrace]
  exact ⟨_, htr, setup_traffic_lights_mem env.lights, setup_traffic_lights_red env.lights⟩

/-- Witness for C10: on the concrete environment `env0`, whose world has
one traffic light (currently Green with 10-second durations), the session
trace configures it to Red with 5.0-second durations before the loop
starts. -/
theorem traffic_lights_red_before_loop_witness :
    (env0.connectOk = true ∧ env0.spawn_points ≠ [] ∧
      env0.vehicleSpawn = some 100 ∧ env0.cameraSpawn = some 101) ∧
    ∃ post, (sessionMain env0).trace =
        (setup_traffic_lights env0.lights).1 ++ SessEv.loopStart :: post ∧
      (∀ l ∈ env0.lights,
        SessEv.setLightState l.id TLState.Red ∈ (setup_traffic_lights env0.lights).1 ∧
        SessEv.setGreenTime l.id 5 ∈ (setup_traffic_lights env0.lights).1 ∧
        SessEv.setRedTime l.id 5 ∈ (setup_traffic_lights env0.lights).1) ∧
      (∀ l2 ∈ (setup_traffic_lights env0.lights).2,
        l2.state = TLState.Red ∧ l2.green_time = 5 ∧ l2.red_time = 5) :=
  ⟨⟨rfl, by decide, rfl, rfl⟩,
   traffic_lights_red_before_loop env0 100 101 rfl (by decide) rfl rfl⟩
